import Mathlib

/-!
Verification of the generic CRUD filter/query translator of this repository
(package crud: GenericCRUD, its Query struct, and the by-example /
map / structured query operations).

Shallow embedding notes.

The repository is a thin wrapper around a relational ORM collaborator.  The
collaborator (connection handling, SQL rendering, actual row storage) is
external per spec sections 1 and 6; we model exactly the capabilities the spec
demands of it: a store of records, a predicate-qualified read returning every
matching record, and per-call failure reporting.  A record is modelled as an
association list of attribute name / value pairs; values are integers or
strings with the usual Go zero values (0 and the empty string); timestamps and
other scalar columns are abstracted as these two kinds.

The repository code itself is translated definition by definition from
src/unnamed/part_000 (second revision, the one defining the Query struct,
OrderBy, SmartQuery and friends, lines 110-300) and, for the constructor with
OmitByDefault, from the revision embedded in src/crud/model.go (lines 49-60).
Go's `panic` (in OrderBy.String) is modelled by an Option result, none meaning
the panic was reached.  Go's (value, error) pairs are modelled as a pair of
Options.  Go maps in the Query struct are modelled as association lists; their
iteration order is unspecified in Go, and the order-insensitivity of the
matched set is itself one of the verified claims.

The Omit (column omission), Preload (relation materialization) and Order (row
presentation order) directives that SmartQuery accumulates select how the
collaborator presents matching rows; they do not change which rows match, so
the modelled read returns the matching rows in store order and the directives
are checked only for the panic in rendering an invalid sort direction.
-/

/-- An attribute value: integer or string column content.  The Go zero values
are `int 0` and `str ""`. -/
inductive Value where
  | int (n : Int)
  | str (s : String)
deriving DecidableEq

/-- Whether a value is the Go zero value of its type (gorm treats zero-valued
struct fields as absent when building a struct condition). -/
def Value.isZero : Value → Bool
  | .int n => decide (n = 0)
  | .str s => decide (s = "")

/-- Strict lexicographic order on character lists by code point. -/
def charListLt : List Char → List Char → Bool
  | [], [] => false
  | [], _ :: _ => true
  | _ :: _, [] => false
  | c :: s, d :: t => Nat.blt c.toNat d.toNat || (c == d && charListLt s t)

/-- Value comparison used by the collaborator for BETWEEN: numeric order on
integers, lexicographic order by code point on strings (the collation model),
false across kinds. -/
def Value.le : Value → Value → Bool
  | .int m, .int n => decide (m ≤ n)
  | .str s, .str t => s == t || charListLt s.data t.data
  | _, _ => false

/-- A record row: association list from attribute name to value. -/
abbrev Rec := List (String × Value)

/-- Attribute lookup in a record; none when the record has no such column. -/
def getAttr (r : Rec) (a : String) : Option Value :=
  match r.find? (fun p => p.1 == a) with
  | some p => some p.2
  | none => none

/-- All suffixes test: `anyTails f s` is true when `f` accepts some suffix of
`s` (including `s` itself and the empty suffix). -/
def anyTails (f : List Char → Bool) : List Char → Bool
  | [] => f []
  | c :: s => f (c :: s) || anyTails f s

/-- One-character step of SQL LIKE matching for a non-% pattern character:
the character must consume exactly one input character, an `_` matches any
character, anything else matches itself. -/
def matchChar (c : Char) (f : List Char → Bool) : List Char → Bool
  | [] => false
  | d :: s => (c == '_' || c == d) && f s

/-- SQL LIKE pattern matching (collaborator semantics for the `LIKE ?`
predicates the translator emits): `%` matches any sequence, `_` any single
character, every other character itself.  No escape character is configured
anywhere in the repository, matching the SQL default. -/
def likeMatch : List Char → List Char → Bool
  | [] => List.isEmpty
  | c :: p => if c == '%' then anyTails (likeMatch p) else matchChar c (likeMatch p)

/-- Prefix test for character lists. -/
def startsWith : List Char → List Char → Bool
  | [], _ => true
  | _ :: _, [] => false
  | c :: v, d :: s => c == d && startsWith v s

/-- Contiguous substring test for character lists. -/
def containsSub (v : List Char) (s : List Char) : Bool :=
  anyTails (startsWith v) s

/-- A WHERE predicate handed to the collaborator: equality, LIKE with a
pattern, or BETWEEN with two bounds — exactly the three clause forms the
translator emits. -/
inductive Cond where
  | eq (a : String) (v : Value)
  | like (a : String) (pattern : String)
  | between (a : String) (lo : Value) (hi : Value)
deriving DecidableEq

/-- Collaborator evaluation of a single predicate on a row (spec section 6:
parameterized equality, substring and range predicates).  A missing column
satisfies no predicate. -/
def evalPred (r : Rec) : Cond → Bool
  | .eq a v =>
    match getAttr r a with
    | some w => decide (w = v)
    | none => false
  | .like a pat =>
    match getAttr r a with
    | some (Value.str s) => likeMatch pat.data s.data
    | _ => false
  | .between a lo hi =>
    match getAttr r a with
    | some w => Value.le lo w && Value.le w hi
    | none => false

/-- A failure reported by the collaborator for one call: its distinguished
record-not-found condition (gorm.ErrRecordNotFound) or any other execution
failure with its message. -/
inductive GormErr where
  | recordNotFound
  | exec (msg : String)
deriving DecidableEq

/-- The error a CRUD operation surfaces to its caller: gorm.ErrRecordNotFound
passed through (also used for the zero-match singleton outcome),
MultipleResultsError, or a collaborator failure wrapped as "db error: %w". -/
inductive CrudErr where
  | notFound
  | multipleResults
  | dbError (msg : String)
deriving DecidableEq

/-- The storage collaborator: the stored rows plus the failure, if any, it
reports for a read issued in this call context. -/
structure DB where
  rows : List Rec
  findErr : Option GormErr
deriving DecidableEq

/-- Modelled collaborator read (spec section 6): `Find` under the accumulated
WHERE predicates returns every stored record satisfying all of them
conjunctively, or the failure the collaborator reports. -/
def dbFind (db : DB) (preds : List Cond) : Except GormErr (List Rec) :=
  match db.findErr with
  | some e => Except.error e
  | none => Except.ok (db.rows.filter (fun x => preds.all (evalPred x)))

/-- `type OrderBy uint` (part_000 line 124). -/
abbrev OrderBy := Nat

/-- `ASC OrderBy = 1 << iota` (part_000 line 142). -/
def ASC : OrderBy := 1

/-- `DESC` (part_000 line 143). -/
def DESC : OrderBy := 2

/-- `func (ob OrderBy) String() string` (part_000 lines 146-154): returns
"ASC" for ASC, "DESC" for DESC and otherwise panics with "unknown OrderBy";
the panic is modelled as none. -/
def OrderBy.String (ob : OrderBy) : Option String :=
  if ob = ASC then some "ASC"
  else if ob = DESC then some "DESC"
  else none

/-- `Between struct { From, To any }` (part_000 lines 125-127). -/
structure Between where
  From : Value
  To : Value
deriving DecidableEq

/-- `Query` struct (part_000 lines 129-136): the structured query descriptor.
The Go map fields are modelled as association lists; Go map iteration order is
unspecified. -/
structure Query where
  Omit : List String
  Preload : List String
  OrderBy : List (String × OrderBy)
  Equal : List (String × String)
  Like : List (String × String)
  Between : List (String × Between)
deriving DecidableEq

/-- The ORDER BY strings SmartQuery builds, one per directive, as
`k + " " + v.String()` (part_000 line 250); none when `v.String()` panics on
an invalid direction. -/
def renderOrders : List (String × OrderBy) → Option (List String)
  | [] => some []
  | (k, v) :: rest =>
    match OrderBy.String v, renderOrders rest with
    | some s, some tl => some ((k ++ " " ++ s) :: tl)
    | _, _ => none

/-- The LIKE pattern SmartQuery passes for a substring clause value:
`fmt.Sprintf("%%%s%%", v)`, i.e. the value wrapped in percent wildcards
(part_000 line 253). -/
def likePattern (v : String) : String := "%" ++ v ++ "%"

/-- The WHERE predicates SmartQuery appends, in the source's clause order
(part_000 lines 252-260): first the Like clauses, then the Between clauses,
then the Equal clauses, each ANDed onto the statement. -/
def smartPreds (q : Query) : List Cond :=
  q.Like.map (fun p => Cond.like p.1 (likePattern p.2))
    ++ q.Between.map (fun p => Cond.between p.1 p.2.From p.2.To)
    ++ q.Equal.map (fun p => Cond.eq p.1 (Value.str p.2))

/-- The struct condition gorm builds for `Where(&v)` ("Query by non-zero
fields of v", part_000 lines 188-193): one equality predicate per attribute of
the example whose value is not the zero value of its type; zero-valued
attributes contribute nothing. -/
def examplePreds (v : Rec) : List Cond :=
  (v.filter (fun p => !p.2.isZero)).map (fun p => Cond.eq p.1 p.2)

/-- The map condition gorm builds for `Find(&res, q)` with a map argument
(part_000 line 217): one equality predicate per map entry, zero values
included. -/
def mapPreds (q : List (String × Value)) : List Cond :=
  q.map (fun p => Cond.eq p.1 p.2)

/-- `GenericCRUD` (part_000 lines 117-122).  The logger field is always nil
and never read in the source, so it is not modelled. -/
structure GenericCRUD where
  db : DB
  omits : List String
deriving DecidableEq

/-- `OmitByDefault = []string{"CreatedAt", "UpdatedAt"}` (src/crud/model.go
line 51). -/
def OmitByDefault : List String := ["CreatedAt", "UpdatedAt"]

/-- `New` from the src/crud/model.go revision (lines 54-60): stores
`append(OmitByDefault, omit...)` as the instance omit list. -/
def New (db : DB) (om : List String) : GenericCRUD :=
  ⟨db, OmitByDefault ++ om⟩

/-- `New` from the src/unnamed/part_000 revision (lines 162-168): stores only
the explicitly supplied omit list (no defaults in that revision). -/
def NewNoDefaults (db : DB) (om : List String) : GenericCRUD :=
  ⟨db, om⟩

/-- The write request a write operation hands to the collaborator: which
collaborator capability is invoked, the value, and the omitted-attribute list.
Executing the write (key generation, SQL) is collaborator-owned (spec
section 6), so the request itself is the operation's observable output. -/
inductive WriteKind where
  | create
  | firstOrCreate
  | updates
deriving DecidableEq

structure WriteReq where
  kind : WriteKind
  value : Rec
  omits : List String
deriving DecidableEq

/-- `Create` (part_000 lines 171-174): `Omit(append(g.omit, omit...)...).Create(&v)`. -/
def GenericCRUD.Create (g : GenericCRUD) (v : Rec) (om : List String) : WriteReq :=
  ⟨WriteKind.create, v, g.omits ++ om⟩

/-- `GetOrCreate` (part_000 lines 177-180):
`Omit(append(g.omit, omit...)...).Where(&v).FirstOrCreate(&v)`. -/
def GenericCRUD.GetOrCreate (g : GenericCRUD) (v : Rec) (om : List String) : WriteReq :=
  ⟨WriteKind.firstOrCreate, v, g.omits ++ om⟩

/-- `Update` (part_000 lines 289-291): `Omit(append(g.omit, omit...)...).Updates(&v)`. -/
def GenericCRUD.Update (g : GenericCRUD) (v : Rec) (om : List String) : WriteReq :=
  ⟨WriteKind.updates, v, g.omits ++ om⟩

/-- `SmartQuery` (part_000 lines 240-263): the statement accumulates, in
source order, the column omissions, the preloads, the rendered ORDER BY
directives (whose rendering panics on an invalid direction — the none result),
and the WHERE predicates of the Like, Between and Equal clauses; `Find` then
executes the read.  Omit, Preload and Order only select how the collaborator
presents the matching rows, so the modelled read returns the matching rows. -/
def GenericCRUD.SmartQuery (g : GenericCRUD) (q : Query) :
    Option (Except GormErr (List Rec)) :=
  match renderOrders q.OrderBy with
  | none => none
  | some _ => some (dbFind g.db (smartPreds q))

/-- `SmartQueryOne` (part_000 lines 266-281): runs SmartQuery, passes a
record-not-found failure through, wraps any other failure as "db error: %w",
then resolves the matched rows: zero rows fail with gorm.ErrRecordNotFound,
two or more with MultipleResultsError, exactly one is returned (`res[0]`,
realized as `head?` under the length-one guard). -/
def GenericCRUD.SmartQueryOne (g : GenericCRUD) (q : Query) :
    Option (Option Rec × Option CrudErr) :=
  match GenericCRUD.SmartQuery g q with
  | none => none
  | some (Except.error GormErr.recordNotFound) => some (none, some CrudErr.notFound)
  | some (Except.error (GormErr.exec m)) => some (none, some (CrudErr.dbError m))
  | some (Except.ok res) =>
    some (if res.length = 0 then (none, some CrudErr.notFound)
          else if res.length > 1 then (none, some CrudErr.multipleResults)
          else (res.head?, none))

/-- `Query` method (part_000 lines 189-193):
`Omit(append(g.omit, omit...)...).Where(&v).Find(&res)` — a by-example list
read; the omit list selects columns only. -/
def GenericCRUD.Query (g : GenericCRUD) (v : Rec) (_om : List String) :
    Except GormErr (List Rec) :=
  dbFind g.db (examplePreds v)

/-- `QueryOne` (part_000 lines 196-212): issues the same by-example Find as
Query, passes a record-not-found failure through, wraps any other failure,
then resolves: zero rows fail with gorm.ErrRecordNotFound, two or more with
MultipleResultsError, exactly one is returned. -/
def GenericCRUD.QueryOne (g : GenericCRUD) (v : Rec) (_om : List String) :
    Option Rec × Option CrudErr :=
  match dbFind g.db (examplePreds v) with
  | Except.error GormErr.recordNotFound => (none, some CrudErr.notFound)
  | Except.error (GormErr.exec m) => (none, some (CrudErr.dbError m))
  | Except.ok res =>
    if res.length = 0 then (none, some CrudErr.notFound)
    else if res.length > 1 then (none, some CrudErr.multipleResults)
    else (res.head?, none)

/-- `QueryMap` (part_000 lines 215-219): `Omit(omit...).Find(&res, q)` — a
map-condition list read. -/
def GenericCRUD.QueryMap (g : GenericCRUD) (q : List (String × Value))
    (_om : List String) : Except GormErr (List Rec) :=
  dbFind g.db (mapPreds q)

/-- `QueryMapOne` (part_000 lines 222-237): calls QueryMap, passes a
record-not-found failure through, wraps any other failure, then resolves the
zero / one / many cases exactly as QueryOne does. -/
def GenericCRUD.QueryMapOne (g : GenericCRUD) (q : List (String × Value))
    (om : List String) : Option Rec × Option CrudErr :=
  match GenericCRUD.QueryMap g q om with
  | Except.error GormErr.recordNotFound => (none, some CrudErr.notFound)
  | Except.error (GormErr.exec m) => (none, some (CrudErr.dbError m))
  | Except.ok res =>
    if res.length = 0 then (none, some CrudErr.notFound)
    else if res.length > 1 then (none, some CrudErr.multipleResults)
    else (res.head?, none)

/-- Spec-side singleton resolution (spec sections 4.1 and 7), the refinement
target for the -One operations: a collaborator failure is surfaced (NotFound
passthrough, otherwise wrapped as an execution error); zero matches fail with
NotFound; exactly one match is returned; two or more fail with
MultipleResults. -/
def resolveSingleton : Except GormErr (List Rec) → Option Rec × Option CrudErr
  | Except.error GormErr.recordNotFound => (none, some CrudErr.notFound)
  | Except.error (GormErr.exec m) => (none, some (CrudErr.dbError m))
  | Except.ok [] => (none, some CrudErr.notFound)
  | Except.ok [r] => (some r, none)
  | Except.ok (_ :: _ :: _) => (none, some CrudErr.multipleResults)

/-- Whether a string is free of the SQL LIKE wildcard characters % and _. -/
def wildcardFree (v : String) : Bool := v.data.all (fun c => c != '%' && c != '_')

theorem anyTails_eq_true (f : List Char → Bool) (s : List Char) :
    anyTails f s = true ↔ ∃ s₁ s₂, s = s₁ ++ s₂ ∧ f s₂ = true := by
  induction s with
  | nil =>
    constructor
    · intro h; exact ⟨[], [], rfl, h⟩
    · rintro ⟨s₁, s₂, he, hf⟩
      obtain ⟨rfl, rfl⟩ := List.append_eq_nil.mp he.symm
      exact hf
  | cons c s ih =>
    simp only [anyTails, Bool.or_eq_true, ih]
    constructor
    · rintro (h | ⟨s₁, s₂, rfl, hf⟩)
      · exact ⟨[], c :: s, rfl, h⟩
      · exact ⟨c :: s₁, s₂, rfl, hf⟩
    · rintro ⟨s₁, s₂, he, hf⟩
      cases s₁ with
      | nil =>
        left
        simp only [List.nil_append] at he
        rw [he]
        exact hf
      | cons d s₁ =>
        right
        injection he with h1 h2
        exact ⟨s₁, s₂, h2, hf⟩

theorem startsWith_eq_true (v : List Char) :
    ∀ s, startsWith v s = true ↔ ∃ t, s = v ++ t := by
  induction v with
  | nil =>
    intro s
    simp only [startsWith, List.nil_append]
    constructor
    · intro _; exact ⟨s, rfl⟩
    · intro _; trivial
  | cons c v ih =>
    intro s
    cases s with
    | nil => simp [startsWith]
    | cons d s =>
      simp only [startsWith, Bool.and_eq_true, beq_iff_eq, ih]
      constructor
      · rintro ⟨rfl, t, rfl⟩; exact ⟨t, rfl⟩
      · rintro ⟨t, ht⟩
        injection ht with h1 h2
        exact ⟨h1.symm, t, h2⟩

theorem containsSub_eq_true (v s : List Char) :
    containsSub v s = true ↔ ∃ s₁ s₂, s = s₁ ++ (v ++ s₂) := by
  simp only [containsSub, anyTails_eq_true, startsWith_eq_true]
  constructor
  · rintro ⟨s₁, s₂, rfl, t, rfl⟩
    exact ⟨s₁, t, rfl⟩
  · rintro ⟨s₁, s₂, rfl⟩
    exact ⟨s₁, v ++ s₂, rfl, s₂, rfl⟩

theorem likeMatch_percent (p s : List Char) :
    likeMatch ('%' :: p) s = anyTails (likeMatch p) s := by
  simp [likeMatch]

theorem likeMatch_percent_single (s : List Char) : likeMatch ['%'] s = true := by
  rw [likeMatch_percent, anyTails_eq_true]
  exact ⟨s, [], by simp, rfl⟩

theorem likeMatch_chars_append (v : List Char)
    (hv : v.all (fun c => c != '%' && c != '_') = true) :
    ∀ p s, likeMatch (v ++ p) s = true ↔ ∃ t, s = v ++ t ∧ likeMatch p t = true := by
  induction v with
  | nil =>
    intro p s
    simp only [List.nil_append]
    constructor
    · intro h; exact ⟨s, rfl, h⟩
    · rintro ⟨t, rfl, h⟩; exact h
  | cons c v ih =>
    simp only [List.all_cons, Bool.and_eq_true, bne_iff_ne, ne_eq] at hv
    obtain ⟨⟨hc1, hc2⟩, hv'⟩ := hv
    intro p s
    have hif : (c == '%') = false := beq_eq_false_iff_ne.mpr hc1
    have hu : (c == '_') = false := beq_eq_false_iff_ne.mpr hc2
    cases s with
    | nil =>
      simp [List.cons_append, likeMatch, hif, matchChar]
    | cons d s =>
      constructor
      · intro h
        simp only [List.cons_append, likeMatch, hif, Bool.false_eq_true, if_false,
          matchChar, hu, Bool.false_or, Bool.and_eq_true, beq_iff_eq] at h
        obtain ⟨rfl, h⟩ := h
        obtain ⟨t, rfl, ht⟩ := (ih hv' p s).mp h
        exact ⟨t, rfl, ht⟩
      · rintro ⟨t, ht, hlm⟩
        injection ht with h1 h2
        subst h1
        subst h2
        simp only [List.cons_append, likeMatch, hif, Bool.false_eq_true, if_false,
          matchChar, hu, Bool.false_or, Bool.and_eq_true, beq_iff_eq]
        exact ⟨by simp, (ih hv' p (v ++ t)).mpr ⟨t, rfl, hlm⟩⟩

theorem likeMatch_wrapped_eq_contains (v : String)
    (hv : wildcardFree v = true) (s : List Char) :
    likeMatch ('%' :: (v.data ++ ['%'])) s = containsSub v.data s := by
  have hv' : v.data.all (fun c => c != '%' && c != '_') = true := hv
  have h1 : likeMatch ('%' :: (v.data ++ ['%'])) s = true ↔
      ∃ s₁ s₂, s = s₁ ++ (v.data ++ s₂) := by
    rw [likeMatch_percent, anyTails_eq_true]
    constructor
    · rintro ⟨s₁, s₂, rfl, h⟩
      obtain ⟨t, rfl, _⟩ := (likeMatch_chars_append v.data hv' ['%'] s₂).mp h
      exact ⟨s₁, t, rfl⟩
    · rintro ⟨s₁, s₂, rfl⟩
      exact ⟨s₁, v.data ++ s₂, rfl,
        (likeMatch_chars_append v.data hv' ['%'] (v.data ++ s₂)).mpr
          ⟨s₂, rfl, likeMatch_percent_single s₂⟩⟩
  have h2 := containsSub_eq_true v.data s
  cases hL : likeMatch ('%' :: (v.data ++ ['%'])) s <;>
    cases hC : containsSub v.data s <;> simp_all

theorem likePattern_data (v : String) :
    (likePattern v).data = '%' :: (v.data ++ ['%']) := by
  simp [likePattern, String.data_append]

theorem Value.le_refl (w : Value) : Value.le w w = true := by
  cases w <;> simp [Value.le]

theorem resolve_if_eq (res : List Rec) :
    (if res.length = 0 then ((none : Option Rec), some CrudErr.notFound)
     else if res.length > 1 then (none, some CrudErr.multipleResults)
     else (res.head?, none)) = resolveSingleton (Except.ok res) := by
  match res with
  | [] => rfl
  | [r] => rfl
  | a :: b :: t => simp [resolveSingleton]

theorem queryOne_eq_resolve (g : GenericCRUD) (v : Rec) (om : List String) :
    GenericCRUD.QueryOne g v om = resolveSingleton (dbFind g.db (examplePreds v)) := by
  unfold GenericCRUD.QueryOne
  cases h : dbFind g.db (examplePreds v) with
  | error e => cases e <;> rfl
  | ok res => exact resolve_if_eq res

theorem queryMapOne_eq_resolve (g : GenericCRUD) (q : List (String × Value))
    (om : List String) :
    GenericCRUD.QueryMapOne g q om = resolveSingleton (GenericCRUD.QueryMap g q om) := by
  unfold GenericCRUD.QueryMapOne
  cases h : GenericCRUD.QueryMap g q om with
  | error e => cases e <;> rfl
  | ok res => exact resolve_if_eq res

theorem smartQueryOne_eq_resolve (g : GenericCRUD) (q : Query) :
    GenericCRUD.SmartQueryOne g q =
      Option.map resolveSingleton (GenericCRUD.SmartQuery g q) := by
  unfold GenericCRUD.SmartQueryOne
  cases h : GenericCRUD.SmartQuery g q with
  | none => rfl
  | some x =>
    cases x with
    | error e => cases e <;> rfl
    | ok res => exact congrArg some (resolve_if_eq res)

theorem dbFind_of_no_err (db : DB) (preds : List Cond) (h : db.findErr = none) :
    dbFind db preds = Except.ok (db.rows.filter (fun x => preds.all (evalPred x))) := by
  unfold dbFind
  rw [h]

theorem all_eq_of_perm {α : Type} {l₁ l₂ : List α} (h : l₁.Perm l₂) (f : α → Bool) :
    l₁.all f = l₂.all f := by
  induction h with
  | nil => rfl
  | cons x _ ih => simp [List.all_cons, ih]
  | swap x y l => cases hfx : f x <;> cases hfy : f y <;> simp [List.all_cons, hfx, hfy]
  | trans _ _ ih₁ ih₂ => rw [ih₁, ih₂]

theorem resolve_three_way (l : List Rec) :
    (l = [] → resolveSingleton (Except.ok l) = (none, some CrudErr.notFound))
    ∧ (∀ r, l = [r] → resolveSingleton (Except.ok l) = (some r, none))
    ∧ (2 ≤ l.length →
        resolveSingleton (Except.ok l) = (none, some CrudErr.multipleResults)) := by
  refine ⟨?_, ?_, ?_⟩
  · rintro rfl; rfl
  · rintro r rfl; rfl
  · intro h
    cases l with
    | nil => simp at h
    | cons a l' =>
      cases l' with
      | nil => simp at h
      | cons b t => rfl

theorem resolve_exclusive (x : Except GormErr (List Rec)) :
    (resolveSingleton x).1.isSome = (resolveSingleton x).2.isNone := by
  match x with
  | Except.error GormErr.recordNotFound => rfl
  | Except.error (GormErr.exec m) => rfl
  | Except.ok [] => rfl
  | Except.ok [r] => rfl
  | Except.ok (a :: b :: t) => rfl

/-- C2: for every write operation (Create, Update, GetOrCreate) and every
per-call explicit omit list, the attributes omitted from the write are exactly
the union of the default omitted set (CreatedAt and UpdatedAt) and the
explicitly supplied lists (constructor plus call); the explicit lists add to
the defaults and never replace them, so an explicit omit still excludes both
timestamps. -/
theorem C2_write_omits_union_of_defaults (db : DB) (ctorOm callOm : List String)
    (v : Rec) :
    (∀ a, a ∈ (GenericCRUD.Create (New db ctorOm) v callOm).omits ↔
      (a ∈ OmitByDefault ∨ a ∈ ctorOm ++ callOm))
    ∧ (∀ a, a ∈ (GenericCRUD.Update (New db ctorOm) v callOm).omits ↔
      (a ∈ OmitByDefault ∨ a ∈ ctorOm ++ callOm))
    ∧ (∀ a, a ∈ (GenericCRUD.GetOrCreate (New db ctorOm) v callOm).omits ↔
      (a ∈ OmitByDefault ∨ a ∈ ctorOm ++ callOm))
    ∧ "CreatedAt" ∈ (GenericCRUD.Update (New db ctorOm) v callOm).omits
    ∧ "UpdatedAt" ∈ (GenericCRUD.Update (New db ctorOm) v callOm).omits := by
  refine ⟨?_, ?_, ?_, ?_, ?_⟩ <;>
    simp [GenericCRUD.Create, GenericCRUD.Update, GenericCRUD.GetOrCreate, New,
      OmitByDefault, List.mem_append, or_assoc]

/-- C3: OrderBy.String maps ASC to "ASC" and DESC to "DESC" and fails fatally
(a panic, modelled as none) on every other OrderBy value, including the zero
value 0 of the type; under the precondition that the input is ASC or DESC the
panic branch is unreachable. -/
theorem C3_orderby_string_total (ob : OrderBy) :
    OrderBy.String ASC = some "ASC"
    ∧ OrderBy.String DESC = some "DESC"
    ∧ OrderBy.String 0 = none
    ∧ (ob ≠ ASC → ob ≠ DESC → OrderBy.String ob = none)
    ∧ ((ob = ASC ∨ ob = DESC) → (OrderBy.String ob).isSome = true) := by
  refine ⟨rfl, rfl, rfl, ?_, ?_⟩
  · intro h1 h2
    unfold OrderBy.String
    rw [if_neg h1, if_neg h2]
  · rintro (rfl | rfl) <;> rfl

/-- Witness for C3: the concrete direction 5 is neither ASC nor DESC and is
rendered as the panic. -/
theorem C3_witness : OrderBy.String 5 = none :=
  (C3_orderby_string_total 5).2.2.2.1 (by decide) (by decide)

/-- C4: by-example filtering emits an equality predicate exactly for the
non-zero attributes of the example, emits nothing else, yields the empty
predicate set on an all-zero example, and a Query over an all-zero example
returns every stored record. -/
theorem C4_by_example_nonzero (g : GenericCRUD) (v : Rec) (om : List String) :
    (∀ a w, Cond.eq a w ∈ examplePreds v ↔ ((a, w) ∈ v ∧ w.isZero = false))
    ∧ (∀ p ∈ examplePreds v, ∃ a w, p = Cond.eq a w ∧ w.isZero = false)
    ∧ ((∀ p ∈ v, (p.2).isZero = true) → examplePreds v = [])
    ∧ (g.db.findErr = none → (∀ p ∈ v, (p.2).isZero = true) →
        GenericCRUD.Query g v om = Except.ok g.db.rows) := by
  have hnil : (∀ p ∈ v, (p.2).isZero = true) → examplePreds v = [] := by
    intro hall
    have hf : v.filter (fun p => !(p.2).isZero) = [] := by
      rw [List.filter_eq_nil_iff]
      intro p hp
      simp [hall p hp]
    simp [examplePreds, hf]
  refine ⟨?_, ?_, hnil, ?_⟩
  · intro a w
    simp only [examplePreds, List.mem_map, List.mem_filter]
    constructor
    · rintro ⟨⟨x, y⟩, ⟨hm, hz⟩, he⟩
      simp only [Cond.eq.injEq] at he
      obtain ⟨rfl, rfl⟩ := he
      exact ⟨hm, by simpa using hz⟩
    · rintro ⟨hm, hz⟩
      exact ⟨(a, w), ⟨hm, by simp [hz]⟩, rfl⟩
  · intro p hp
    simp only [examplePreds, List.mem_map, List.mem_filter] at hp
    obtain ⟨⟨x, y⟩, ⟨hm, hz⟩, rfl⟩ := hp
    exact ⟨x, y, rfl, by simpa using hz⟩
  · intro hfe hall
    unfold GenericCRUD.Query
    rw [dbFind_of_no_err _ _ hfe, hnil hall]
    simp

def dbW : DB := ⟨[[("ID", Value.int 1)], [("ID", Value.int 2)]], none⟩

/-- Witness for C4: a query by an example whose only attribute is at its zero
value returns every stored record. -/
theorem C4_witness :
    GenericCRUD.Query (NewNoDefaults dbW []) [("Name", Value.str "")] [] =
      Except.ok dbW.rows :=
  (C4_by_example_nonzero (NewNoDefaults dbW []) [("Name", Value.str "")] []).2.2.2
    rfl (by decide)

/-- C9: QueryMapOne and SmartQueryOne are exactly the spec's singleton
resolution applied to the output of QueryMap and SmartQuery respectively (for
SmartQuery, mapped under the possible OrderBy rendering panic), so a -One call
and its list counterpart always agree on which records match. -/
theorem C9_one_refines_list (g : GenericCRUD) (mq : List (String × Value))
    (om : List String) (sq : Query) :
    GenericCRUD.QueryMapOne g mq om = resolveSingleton (GenericCRUD.QueryMap g mq om)
    ∧ GenericCRUD.SmartQueryOne g sq =
        Option.map resolveSingleton (GenericCRUD.SmartQuery g sq) :=
  ⟨queryMapOne_eq_resolve g mq om, smartQueryOne_eq_resolve g sq⟩

/-- C10: each singleton operation returns either a record or an error, never
both and never neither: the record is present exactly when the error is
absent. -/
theorem C10_record_xor_error (g : GenericCRUD) (v : Rec) (om : List String)
    (mq : List (String × Value)) (sq : Query) :
    ((GenericCRUD.QueryOne g v om).1.isSome = (GenericCRUD.QueryOne g v om).2.isNone)
    ∧ ((GenericCRUD.QueryMapOne g mq om).1.isSome =
        (GenericCRUD.QueryMapOne g mq om).2.isNone)
    ∧ (∀ out, GenericCRUD.SmartQueryOne g sq = some out →
        out.1.isSome = out.2.isNone) := by
  refine ⟨?_, ?_, ?_⟩
  · rw [queryOne_eq_resolve]; exact resolve_exclusive _
  · rw [queryMapOne_eq_resolve]; exact resolve_exclusive _
  · intro out h
    rw [smartQueryOne_eq_resolve] at h
    cases hs : GenericCRUD.SmartQuery g sq with
    | none =>
      rw [hs] at h
      exact Option.noConfusion h
    | some x =>
      rw [hs] at h
      have hx : resolveSingleton x = out := by simpa using h
      rw [← hx]
      exact resolve_exclusive x

/-- C1: when the underlying find succeeds, every singleton operation
(QueryOne, QueryMapOne, SmartQueryOne) returns the NotFound error if zero
records matched, the single matched record with no error if exactly one
matched, and the MultipleResults error — a value distinct from NotFound — if
two or more matched; plural results are never collapsed to a first match. -/
theorem C1_singleton_three_way (g : GenericCRUD) (v : Rec) (om : List String)
    (mq : List (String × Value)) (sq : Query) (os : List String)
    (hfind : g.db.findErr = none)
    (hord : renderOrders sq.OrderBy = some os) :
    CrudErr.multipleResults ≠ CrudErr.notFound
    ∧ (g.db.rows.filter (fun x => (examplePreds v).all (evalPred x)) = [] →
        GenericCRUD.QueryOne g v om = (none, some CrudErr.notFound))
    ∧ (∀ r, g.db.rows.filter (fun x => (examplePreds v).all (evalPred x)) = [r] →
        GenericCRUD.QueryOne g v om = (some r, none))
    ∧ (2 ≤ (g.db.rows.filter (fun x => (examplePreds v).all (evalPred x))).length →
        GenericCRUD.QueryOne g v om = (none, some CrudErr.multipleResults))
    ∧ (g.db.rows.filter (fun x => (mapPreds mq).all (evalPred x)) = [] →
        GenericCRUD.QueryMapOne g mq om = (none, some CrudErr.notFound))
    ∧ (∀ r, g.db.rows.filter (fun x => (mapPreds mq).all (evalPred x)) = [r] →
        GenericCRUD.QueryMapOne g mq om = (some r, none))
    ∧ (2 ≤ (g.db.rows.filter (fun x => (mapPreds mq).all (evalPred x))).length →
        GenericCRUD.QueryMapOne g mq om = (none, some CrudErr.multipleResults))
    ∧ (g.db.rows.filter (fun x => (smartPreds sq).all (evalPred x)) = [] →
        GenericCRUD.SmartQueryOne g sq = some (none, some CrudErr.notFound))
    ∧ (∀ r, g.db.rows.filter (fun x => (smartPreds sq).all (evalPred x)) = [r] →
        GenericCRUD.SmartQueryOne g sq = some (some r, none))
    ∧ (2 ≤ (g.db.rows.filter (fun x => (smartPreds sq).all (evalPred x))).length →
        GenericCRUD.SmartQueryOne g sq = some (none, some CrudErr.multipleResults)) := by
  refine ⟨by decide, ?_, ?_, ?_, ?_, ?_, ?_, ?_, ?_, ?_⟩
  · intro h
    rw [queryOne_eq_resolve, dbFind_of_no_err _ _ hfind]
    exact (resolve_three_way _).1 h
  · intro r h
    rw [queryOne_eq_resolve, dbFind_of_no_err _ _ hfind]
    exact (resolve_three_way _).2.1 r h
  · intro h
    rw [queryOne_eq_resolve, dbFind_of_no_err _ _ hfind]
    exact (resolve_three_way _).2.2 h
  · intro h
    rw [queryMapOne_eq_resolve]
    unfold GenericCRUD.QueryMap
    rw [dbFind_of_no_err _ _ hfind]
    exact (resolve_three_way _).1 h
  · intro r h
    rw [queryMapOne_eq_resolve]
    unfold GenericCRUD.QueryMap
    rw [dbFind_of_no_err _ _ hfind]
    exact (resolve_three_way _).2.1 r h
  · intro h
    rw [queryMapOne_eq_resolve]
    unfold GenericCRUD.QueryMap
    rw [dbFind_of_no_err _ _ hfind]
    exact (resolve_three_way _).2.2 h
  · intro h
    rw [smartQueryOne_eq_resolve]
    unfold GenericCRUD.SmartQuery
    rw [hord, dbFind_of_no_err _ _ hfind]
    exact congrArg some ((resolve_three_way _).1 h)
  · intro r h
    rw [smartQueryOne_eq_resolve]
    unfold GenericCRUD.SmartQuery
    rw [hord, dbFind_of_no_err _ _ hfind]
    exact congrArg some ((resolve_three_way _).2.1 r h)
  · intro h
    rw [smartQueryOne_eq_resolve]
    unfold GenericCRUD.SmartQuery
    rw [hord, dbFind_of_no_err _ _ hfind]
    exact congrArg some ((resolve_three_way _).2.2 h)

def rW : Rec := [("ID", Value.int 1)]

def gW : GenericCRUD := ⟨⟨[rW], none⟩, []⟩

def sqW : Query := ⟨[], [], [], [], [], []⟩

/-- Witness for C1: on a store holding exactly one record, the all-zero
example matches exactly that record and QueryOne returns it without error. -/
theorem C1_witness : GenericCRUD.QueryOne gW [] [] = (some rW, none) :=
  (C1_singleton_three_way gW [] [] [] sqW [] rfl rfl).2.2.1 rW rfl

theorem smartQuery_eq_of_perm (g : GenericCRUD) (q₁ q₂ : Query)
    (hord : q₁.OrderBy = q₂.OrderBy)
    (hperm : (smartPreds q₁).Perm (smartPreds q₂)) :
    GenericCRUD.SmartQuery g q₁ = GenericCRUD.SmartQuery g q₂ := by
  unfold GenericCRUD.SmartQuery
  rw [hord]
  cases renderOrders q₂.OrderBy with
  | none => rfl
  | some os =>
    have hdb : dbFind g.db (smartPreds q₁) = dbFind g.db (smartPreds q₂) := by
      unfold dbFind
      cases g.db.findErr with
      | some e0 => rfl
      | none =>
        have hfc : List.filter (fun x => (smartPreds q₁).all (evalPred x)) g.db.rows =
            List.filter (fun x => (smartPreds q₂).all (evalPred x)) g.db.rows :=
          List.filter_congr (fun x hx => all_eq_of_perm hperm (evalPred x))
        exact congrArg Except.ok hfc
    rw [hdb]

/-- C5: SmartQuery combines the equality, substring and range clauses
conjunctively — a row is in the result iff it is stored and satisfies every
emitted predicate, with no disjunction — and permuting the clause lists leaves
the result unchanged. -/
theorem C5_conjunctive_order_independent (g : GenericCRUD) (q : Query)
    (l : List (String × String)) (b : List (String × Between))
    (e : List (String × String))
    (hl : l.Perm q.Like) (hb : b.Perm q.Between) (he : e.Perm q.Equal) :
    GenericCRUD.SmartQuery g ⟨q.Omit, q.Preload, q.OrderBy, e, l, b⟩ =
      GenericCRUD.SmartQuery g q
    ∧ (∀ res, GenericCRUD.SmartQuery g q = some (Except.ok res) →
        ∀ r, r ∈ res ↔ (r ∈ g.db.rows ∧ ∀ p ∈ smartPreds q, evalPred r p = true)) := by
  constructor
  · refine smartQuery_eq_of_perm g ⟨q.Omit, q.Preload, q.OrderBy, e, l, b⟩ q rfl ?_
    exact ((hl.map _).append (hb.map _)).append (he.map _)
  · intro res hres r
    unfold GenericCRUD.SmartQuery at hres
    cases hr0 : renderOrders q.OrderBy with
    | none =>
      rw [hr0] at hres
      exact Option.noConfusion hres
    | some os =>
      rw [hr0] at hres
      have hdb := Option.some.inj hres
      unfold dbFind at hdb
      cases hferr : g.db.findErr with
      | some e0 =>
        rw [hferr] at hdb
        exact Except.noConfusion hdb
      | none =>
        rw [hferr] at hdb
        have hres2 : res = g.db.rows.filter (fun x => (smartPreds q).all (evalPred x)) :=
          (Except.ok.inj hdb).symm
        subst hres2
        simp [List.mem_filter, List.all_eq_true]

def qu5 : Query := ⟨[], [], [], [("a", "1"), ("b", "2")], [("n", "x")], []⟩

def qu5p : Query := ⟨[], [], [], [("b", "2"), ("a", "1")], [("n", "x")], []⟩

/-- Witness for C5: swapping the two equality clauses of a concrete
structured query leaves the SmartQuery result unchanged. -/
theorem C5_witness : GenericCRUD.SmartQuery gW qu5p = GenericCRUD.SmartQuery gW qu5 :=
  (C5_conjunctive_order_independent gW qu5 [("n", "x")] [] [("b", "2"), ("a", "1")]
    (List.Perm.refl _) (List.Perm.refl _) (List.Perm.swap ("a", "1") ("b", "2") [])).1

/-- C6: every range clause (attribute, Between From To) of a structured query
is emitted as the predicate attribute BETWEEN From AND To, and the bounds are
inclusive: a stored record whose attribute equals From or equals To (the
lower and upper ends of the range) satisfies the clause, and if it satisfies
the remaining clauses it is included in the SmartQuery result. -/
theorem C6_between_inclusive (g : GenericCRUD) (q : Query) (k : String)
    (b : Between) (r : Rec)
    (hmem : (k, b) ∈ q.Between)
    (hattr : getAttr r k = some b.From ∨ getAttr r k = some b.To)
    (hle : Value.le b.From b.To = true)
    (hr : r ∈ g.db.rows)
    (hothers : ∀ p ∈ smartPreds q, p ≠ Cond.between k b.From b.To →
        evalPred r p = true) :
    Cond.between k b.From b.To ∈ smartPreds q
    ∧ evalPred r (Cond.between k b.From b.To) = true
    ∧ (∀ res, GenericCRUD.SmartQuery g q = some (Except.ok res) → r ∈ res) := by
  have hin : Cond.between k b.From b.To ∈ smartPreds q := by
    unfold smartPreds
    refine List.mem_append.mpr (Or.inl (List.mem_append.mpr (Or.inr ?_)))
    exact List.mem_map.mpr ⟨(k, b), hmem, rfl⟩
  have heval : evalPred r (Cond.between k b.From b.To) = true := by
    simp only [evalPred]
    cases hattr with
    | inl h => rw [h]; simp [Value.le_refl, hle]
    | inr h => rw [h]; simp [Value.le_refl, hle]
  refine ⟨hin, heval, ?_⟩
  intro res hres
  unfold GenericCRUD.SmartQuery at hres
  cases hr0 : renderOrders q.OrderBy with
  | none =>
    rw [hr0] at hres
    exact Option.noConfusion hres
  | some os =>
    rw [hr0] at hres
    have hdb := Option.some.inj hres
    unfold dbFind at hdb
    cases hferr : g.db.findErr with
    | some e0 =>
      rw [hferr] at hdb
      exact Except.noConfusion hdb
    | none =>
      rw [hferr] at hdb
      have hres2 : res = g.db.rows.filter (fun x => (smartPreds q).all (evalPred x)) :=
        (Except.ok.inj hdb).symm
      subst hres2
      refine List.mem_filter.mpr ⟨hr, ?_⟩
      rw [List.all_eq_true]
      intro p hp
      by_cases hpe : p = Cond.between k b.From b.To
      · rw [hpe]; exact heval
      · exact hothers p hp hpe

def rC6 : Rec := [("a", Value.int 1)]

def gC6 : GenericCRUD := ⟨⟨[rC6], none⟩, []⟩

def qC6 : Query := ⟨[], [], [], [], [], [("a", ⟨Value.int 1, Value.int 3⟩)]⟩

/-- Witness for C6: a record whose attribute equals the lower bound of a
concrete range clause satisfies the emitted BETWEEN predicate. -/
theorem C6_witness :
    evalPred rC6 (Cond.between "a" (Value.int 1) (Value.int 3)) = true :=
  (C6_between_inclusive gC6 qC6 "a" ⟨Value.int 1, Value.int 3⟩ rC6 (by decide)
    (Or.inl (by decide)) (by decide) (by decide) (by decide)).2.1

def dbC7 : DB := ⟨[[("name", Value.str "ab")]], none⟩

def gC7 : GenericCRUD := ⟨dbC7, []⟩

def qC7 : Query := ⟨[], [], [], [], [("name", "%")], []⟩

/-- Counterexample to C7 as stated: the substring clause value consisting of
the single character % yields the LIKE pattern with three percent signs,
which matches the stored record whose name attribute is "ab" even though "ab"
does not contain "%" as a contiguous substring — so a substring clause does
not always match exactly the records containing the value. -/
theorem C7_counterexample :
    GenericCRUD.SmartQuery gC7 qC7 = some (Except.ok [[("name", Value.str "ab")]])
    ∧ containsSub "%".data "ab".data = false := by
  constructor
  · rfl
  · rfl

/-- C7 amended: for every substring clause (attribute, value) of a structured
query, SmartQuery emits the predicate attribute LIKE with the value wrapped in
percent wildcards on both sides; when the value is free of the LIKE wildcard
characters % and _ the emitted predicate matches a string-valued attribute
exactly when it contains the value as a contiguous substring (case
sensitivity per the collaborator's default collation); values containing
wildcard characters keep their SQL wildcard meaning instead. -/
theorem C7_like_contains_amended (q : Query) (k v : String) (r : Rec) (s : String)
    (hmem : (k, v) ∈ q.Like)
    (hfree : wildcardFree v = true)
    (hattr : getAttr r k = some (Value.str s)) :
    Cond.like k (likePattern v) ∈ smartPreds q
    ∧ (evalPred r (Cond.like k (likePattern v)) = true ↔
        containsSub v.data s.data = true) := by
  constructor
  · unfold smartPreds
    refine List.mem_append.mpr (Or.inl (List.mem_append.mpr (Or.inl ?_)))
    exact List.mem_map.mpr ⟨(k, v), hmem, rfl⟩
  · simp only [evalPred, hattr]
    rw [likePattern_data, likeMatch_wrapped_eq_contains v hfree]

def rC7w : Rec := [("name", Value.str "test")]

def qC7w : Query := ⟨[], [], [], [], [("name", "es")], []⟩

/-- Witness for the amended C7: the wildcard-free clause value "es" is a
substring of the stored value "test", so the emitted LIKE predicate accepts
the record. -/
theorem C7_witness :
    evalPred rC7w (Cond.like "name" (likePattern "es")) = true :=
  (C7_like_contains_amended qC7w "name" "es" rC7w "test" (by decide) (by decide)
    (by decide)).2.mpr (by decide)

/-- C8: for the list-returning operations (Query, QueryMap, SmartQuery),
matching zero records is a success, not an error: under a successful find
(and, for SmartQuery, valid sort directions) the operations never return an
error — in particular never NotFound — and an empty match set comes back as
the empty list with no error. -/
theorem C8_empty_list_is_success (g : GenericCRUD) (v : Rec) (om : List String)
    (mq : List (String × Value)) (sq : Query) (os : List String)
    (hfind : g.db.findErr = none)
    (hord : renderOrders sq.OrderBy = some os) :
    (∀ e, GenericCRUD.Query g v om ≠ Except.error e)
    ∧ (g.db.rows.filter (fun x => (examplePreds v).all (evalPred x)) = [] →
        GenericCRUD.Query g v om = Except.ok [])
    ∧ (∀ e, GenericCRUD.QueryMap g mq om ≠ Except.error e)
    ∧ (g.db.rows.filter (fun x => (mapPreds mq).all (evalPred x)) = [] →
        GenericCRUD.QueryMap g mq om = Except.ok [])
    ∧ (∀ e, GenericCRUD.SmartQuery g sq ≠ some (Except.error e))
    ∧ (g.db.rows.filter (fun x => (smartPreds sq).all (evalPred x)) = [] →
        GenericCRUD.SmartQuery g sq = some (Except.ok [])) := by
  refine ⟨?_, ?_, ?_, ?_, ?_, ?_⟩
  · intro e0 hcontra
    unfold GenericCRUD.Query at hcontra
    rw [dbFind_of_no_err _ _ hfind] at hcontra
    exact Except.noConfusion hcontra
  · intro h
    unfold GenericCRUD.Query
    rw [dbFind_of_no_err _ _ hfind, h]
  · intro e0 hcontra
    unfold GenericCRUD.QueryMap at hcontra
    rw [dbFind_of_no_err _ _ hfind] at hcontra
    exact Except.noConfusion hcontra
  · intro h
    unfold GenericCRUD.QueryMap
    rw [dbFind_of_no_err _ _ hfind, h]
  · intro e0 hcontra
    unfold GenericCRUD.SmartQuery at hcontra
    rw [hord] at hcontra
    have hdb := Option.some.inj hcontra
    rw [dbFind_of_no_err _ _ hfind] at hdb
    exact Except.noConfusion hdb
  · intro h
    unfold GenericCRUD.SmartQuery
    rw [hord, dbFind_of_no_err _ _ hfind, h]

def gW8 : GenericCRUD := ⟨⟨[], none⟩, []⟩

/-- Witness for C8: a by-example query on an empty store succeeds with the
empty list rather than failing with NotFound. -/
theorem C8_witness : GenericCRUD.Query gW8 [] [] = Except.ok [] :=
  (C8_empty_list_is_success gW8 [] [] [] sqW [] rfl rfl).2.1 rfl

/-- Witness for C10: on the empty store, SmartQueryOne returns no record
together with the NotFound error — exactly one of the two is present. -/
theorem C10_witness :
    ((none : Option Rec), (some CrudErr.notFound : Option CrudErr)).1.isSome =
      ((none : Option Rec), (some CrudErr.notFound : Option CrudErr)).2.isNone :=
  (C10_record_xor_error gW8 [] [] [] sqW).2.2 (none, some CrudErr.notFound) rfl
